import Mathlib

/-!
Verification of the LUM raster driver (frmts/lum/lumdataset.cpp): the 12-byte
header codec, the Identify sniffer, the Open parser, the Create writer and the
geotransform accessor.  Machine integers are modelled as Nat/Int with explicit
reductions modulo 2^32 where the C code relies on 32-bit wrap-around; byte
buffers are lists of naturals (each byte < 256); the two conditional-compilation
variants selected by CPL_LSB are modelled by an explicit hostLE parameter.
-/

namespace LUM

/-- ASCII tolower as used by the case-insensitive comparisons of
STARTS_WITH_CI / EQUALN / EQUAL in the CPL string helpers. -/
def toLower (c : Nat) : Nat := if 65 ≤ c ∧ c ≤ 90 then c + 32 else c

/-- Case-insensitive equality of two bytes. -/
def ciEq (a b : Nat) : Bool := toLower a == toLower b

/-- STARTS_WITH_CI(buf + off, tag): case-insensitive comparison of the bytes of
the buffer starting at off against the tag characters. -/
def startsWithCI (hdr : List Nat) (off : Nat) : List Nat → Bool
  | [] => true
  | c :: rest => ciEq (hdr.getD off 0) c && startsWithCI hdr (off + 1) rest

/-- EQUAL(a, b): case-insensitive equality of two character strings. -/
def strEqCI : List Nat → List Nat → Bool
  | [], [] => true
  | a :: as, b :: bs => ciEq a b && strEqCI as bs
  | _, _ => false

/-- Little-endian memory image of a 32-bit value (least significant byte
first), as laid out by an x86-style host. -/
def u32bytesLE (v : Nat) : List Nat :=
  [v % 256, v / 256 % 256, v / 65536 % 256, v / 16777216 % 256]

/-- Memory image of a 32-bit value on a host of the given endianness. -/
def u32bytes (hostLE : Bool) (v : Nat) : List Nat :=
  if hostLE then u32bytesLE v else (u32bytesLE v).reverse

/-- Reinterpretation of 4 consecutive buffer bytes as a uint32_t in the host's
native byte order, as done by `pszSrc[0]` / `pszSrc[1]` in LUMDataset::Open. -/
def readU32 (hostLE : Bool) (hdr : List Nat) (off : Nat) : Nat :=
  if hostLE then
    hdr.getD off 0 + hdr.getD (off + 1) 0 * 256 +
      hdr.getD (off + 2) 0 * 65536 + hdr.getD (off + 3) 0 * 16777216
  else
    hdr.getD (off + 3) 0 + hdr.getD (off + 2) 0 * 256 +
      hdr.getD (off + 1) 0 * 65536 + hdr.getD off 0 * 16777216

/-- static_cast<GUInt32>(x) for a C++ int x: reduction modulo 2^32. -/
def u32ofInt (x : Int) : Nat := (x % 4294967296).toNat

/-- Assignment of a uint32_t value to a C++ int (two's-complement wrap), as in
`poDS->nRasterXSize = nWidth`. -/
def i32ofU32 (n : Nat) : Int :=
  if n < 2147483648 then (n : Int) else (n : Int) - 4294967296

/-- swapByteOrder(uint32_t &ui):
`ui = (ui >> 24) | ((ui << 8) & 0x00FF0000) | ((ui >> 8) & 0x0000FF00) | (ui << 24)`
with every operation performed in 32-bit unsigned arithmetic. -/
def swapByteOrder (ui : Nat) : Nat :=
  (ui >>> 24) ||| ((ui <<< 8) &&& 0x00FF0000) ||| ((ui >>> 8) &&& 0x0000FF00) |||
    ((ui <<< 24) % 4294967296)

/-- The GDAL pixel type codes relevant to this driver (GDT_Float32 stands for
an arbitrary unsupported creation type). -/
inductive GDALDataType
  | GDT_Unknown
  | GDT_Byte
  | GDT_UInt16
  | GDT_Float32
deriving DecidableEq

/-- GDALGetDataTypeSizeBytes for the modelled types. -/
def GDALGetDataTypeSizeBytes : GDALDataType → Nat
  | GDALDataType.GDT_Unknown => 0
  | GDALDataType.GDT_Byte => 1
  | GDALDataType.GDT_UInt16 => 2
  | GDALDataType.GDT_Float32 => 4

/-- GDALAccess: GA_ReadOnly or GA_Update. -/
inductive Access
  | readOnly
  | update
deriving DecidableEq

/-- Color interpretation of a band (only GCI_GrayIndex is ever set here). -/
inductive ColorInterp
  | undefined
  | grayIndex
deriving DecidableEq

/-- The configuration of the RawRasterBand that Open constructs: the arguments
handed to the RawRasterBand constructor at lumdataset.cpp:245-254 plus the
color interpretation set immediately afterwards. -/
structure RawBandModel where
  imgOffset : Nat
  pixelOffset : Nat
  lineOffset : Nat
  dataType : GDALDataType
  bNativeOrder : Bool
  ownsFP : Bool
  colorInterp : ColorInterp
deriving DecidableEq

/-- The observable state of a LUMDataset adapter. -/
structure LUMDatasetModel where
  nRasterXSize : Int
  nRasterYSize : Int
  eAccess : Access
  band : Option RawBandModel
  bGeoTransformValid : Bool
  geoTransform : List Int
deriving DecidableEq

/-- LUMDataset::LUMDataset(): bGeoTransformValid starts false and the
geotransform array starts as the identity transform [0,1,0,0,0,1] (the doubles
written there are the exactly representable values 0.0 and 1.0). -/
def newLUMDataset : LUMDatasetModel :=
  { nRasterXSize := 0
    nRasterYSize := 0
    eAccess := Access.readOnly
    band := none
    bGeoTransformValid := false
    geoTransform := [0, 1, 0, 0, 0, 1] }

/-- LUMDataset::GetGeoTransform: copies the six coefficients and returns
CE_None when bGeoTransformValid, otherwise returns CE_Failure (modelled as
none). -/
def getGeoTransform (ds : LUMDatasetModel) : Option (List Int) :=
  if ds.bGeoTransformValid then some ds.geoTransform else none

/-- The 19 four-character tags enumerated in LUMDataset::Identify:
"08BI".."16BI", "08LI".."16LI" and "FLOL", as ASCII bytes. -/
def identifyTags : List (List Nat) :=
  [[48, 56, 66, 73], [48, 57, 66, 73], [49, 48, 66, 73], [49, 49, 66, 73],
   [49, 50, 66, 73], [49, 51, 66, 73], [49, 52, 66, 73], [49, 53, 66, 73],
   [49, 54, 66, 73],
   [48, 56, 76, 73], [48, 57, 76, 73], [49, 48, 76, 73], [49, 49, 76, 73],
   [49, 50, 76, 73], [49, 51, 76, 73], [49, 52, 76, 73], [49, 53, 76, 73],
   [49, 54, 76, 73],
   [70, 76, 79, 76]]

/-- LUMDataset::Identify: false when fewer than 12 header bytes or no stream;
otherwise true exactly when bytes 8..11 case-insensitively start with one of
the 19 tags (the source writes this as a conjunction of 19 negated
STARTS_WITH_CI tests). -/
def identify (hdr : List Nat) (fpL : Bool) : Bool :=
  if hdr.length < 12 ∨ fpL = false then false
  else identifyTags.any (fun t => startsWithCI hdr 8 t)

/-- The byte-swap condition of LUMDataset::Open: under CPL_LSB the header
fields are swapped when the order tag reads "BI", otherwise when it reads
"LI" ('B' = 66, 'I' = 73, 'L' = 76). -/
def openDoSwap (hostLE : Bool) (hdr : List Nat) : Bool :=
  if hostLE then startsWithCI hdr 10 [66, 73] else startsWithCI hdr 10 [76, 73]

/-- The width value LUMDataset::Open derives: the raw uint32_t at offset 0,
byte-swapped when the order tag denotes the non-native order. -/
def openParsedWidth (hostLE : Bool) (hdr : List Nat) : Nat :=
  if openDoSwap hostLE hdr then swapByteOrder (readU32 hostLE hdr 0)
  else readU32 hostLE hdr 0

/-- The height value LUMDataset::Open derives from the uint32_t at offset 4. -/
def openParsedHeight (hostLE : Bool) (hdr : List Nat) : Nat :=
  if openDoSwap hostLE hdr then swapByteOrder (readU32 hostLE hdr 4)
  else readU32 hostLE hdr 4

/-- The bMSBFirst flag computed at lumdataset.cpp:204-224 and passed as the
bNativeOrder argument of the RawRasterBand constructor. -/
def openMSBFirst (hostLE : Bool) (hdr : List Nat) : Bool :=
  if hostLE then
    if startsWithCI hdr 10 [66, 73] then false else true
  else
    if startsWithCI hdr 10 [76, 73] then false else true

/-- The pixel type LUMDataset::Open derives: GDT_Byte when the bit-depth tag
reads "08" ('0' = 48, '8' = 56), GDT_UInt16 otherwise. -/
def openDataType (hdr : List Nat) : GDALDataType :=
  if startsWithCI hdr 8 [48, 56] then GDALDataType.GDT_Byte
  else GDALDataType.GDT_UInt16

/-- Result of LUMDataset::Open: the returned dataset (none models a nullptr
return), whether Open took ownership of the caller's stream (fpL was moved
into fpImage), and whether that stream was closed again before returning
(`delete poDS` runs ~LUMDataset, which closes fpImage). -/
structure OpenOutcome where
  dataset : Option LUMDatasetModel
  streamTaken : Bool
  streamClosed : Bool
deriving DecidableEq

/-- LUMDataset::Open, step for step.  hdr is the GDALOpenInfo header buffer
(the first min(fileSize, 1024) bytes of the file), fpL says whether the open
info carries a readable stream, acc is the requested access mode.  The C
locals nWidth, nHeight, eDataType, iPixelSize appear here as the applications
of openParsedWidth, openParsedHeight, openDataType and
GDALGetDataTypeSizeBytes; the returned record keeps geoTransform =
[0, 1, 0, 0, 0, 1] from the LUMDataset constructor and sets
bGeoTransformValid at lumdataset.cpp:260. -/
def openLUM (hostLE : Bool) (hdr : List Nat) (fpL : Bool) (acc : Access) : OpenOutcome :=
  if identify hdr fpL = false then ⟨none, false, false⟩
  else if fpL = false then ⟨none, false, false⟩
  else if i32ofU32 (openParsedWidth hostLE hdr) ≤ 0 ∨
      i32ofU32 (openParsedHeight hostLE hdr) ≤ 0 then ⟨none, true, true⟩
  else if 2147483647 / GDALGetDataTypeSizeBytes (openDataType hdr) <
      openParsedWidth hostLE hdr then ⟨none, true, true⟩
  else
    ⟨some { nRasterXSize := i32ofU32 (openParsedWidth hostLE hdr)
            nRasterYSize := i32ofU32 (openParsedHeight hostLE hdr)
            eAccess := acc
            band := some { imgOffset := openParsedWidth hostLE hdr *
                             GDALGetDataTypeSizeBytes (openDataType hdr)
                           pixelOffset := GDALGetDataTypeSizeBytes (openDataType hdr)
                           lineOffset := openParsedWidth hostLE hdr *
                             GDALGetDataTypeSizeBytes (openDataType hdr)
                           dataType := openDataType hdr
                           bNativeOrder := openMSBFirst hostLE hdr
                           ownsFP := false
                           colorInterp := ColorInterp.grayIndex }
            bGeoTransformValid := true
            geoTransform := [0, 1, 0, 0, 0, 1] },
     true, false⟩

/-- The bit-depth number Create formats with "%02d": 8 for GDT_Byte and 12
(not 16) for GDT_UInt16. -/
def depthNumber (t : GDALDataType) : Nat :=
  if t = GDALDataType.GDT_Byte then 8 else 12

/-- The 4-character header tag Create writes: the zero-padded depth number
followed by "LI" under CPL_LSB and "BI" otherwise. -/
def tagBytes (hostLE : Bool) (t : GDALDataType) : List Nat :=
  [48 + depthNumber t / 10, 48 + depthNumber t % 10] ++
    (if hostLE then [76, 73] else [66, 73])

/-- EQUAL(osExt, "LUM"): case-insensitive comparison of the filename extension
with "LUM" ('L' = 76, 'U' = 85, 'M' = 77). -/
def extIsLUM (ext : List Nat) : Bool := strEqCI ext [76, 85, 77]

/-- The ASCII bytes of the lowercase extension "lum". -/
def lumExt : List Nat := [108, 117, 109]

/-- Outcomes of the I/O calls Create performs.  Each VSIFWriteL field is the
number of bytes the call actually appended to the file: a call that fails
(returns an object count of 0) appends a strict prefix of its chunk, a call
that succeeds appends the whole chunk. -/
structure CreateEnv where
  openOK : Bool
  widthBytesWritten : Nat
  heightBytesWritten : Nat
  tagBytesWritten : Nat
  closeOK : Bool

/-- The environment in which every I/O call of Create succeeds. -/
def allOKEnv : CreateEnv :=
  { openOK := true, widthBytesWritten := 4, heightBytesWritten := 4,
    tagBytesWritten := 4, closeOK := true }

/-- Result of LUMDataset::Create: the returned dataset (none models nullptr),
the content of the destination file (none when the file was never
truncate-created, i.e. VSIFOpenL was not reached or failed), and whether the
non-fatal extension warning was emitted. -/
structure CreateResult where
  dataset : Option LUMDatasetModel
  fileContent : Option (List Nat)
  warnedExt : Bool
deriving DecidableEq

/-- The bytes present in the destination file after the three VSIFWriteL
calls of Create: each call appends the written prefix of its chunk
(nImageWidth = u32ofInt nXSize, nImageHeight = u32ofInt nYSize, then the
4-character tag). -/
def createContent (hostLE : Bool) (env : CreateEnv) (nXSize nYSize : Int)
    (eType : GDALDataType) : List Nat :=
  (u32bytes hostLE (u32ofInt nXSize)).take env.widthBytesWritten ++
    (u32bytes hostLE (u32ofInt nYSize)).take env.heightBytesWritten ++
    (tagBytes hostLE eType).take env.tagBytesWritten

/-- LUMDataset::Create, step for step.  The filename is abstracted to its
extension (CPLGetExtension result); nXSize, nYSize, nBands are the C++ int
arguments.  bOK is the check of the tag write (the width and height write
results are not inspected by the source) combined with the close result; on
the success path the file is reopened with GA_Update and the result of
LUMDataset::Open on it is returned. -/
def createLUM (hostLE : Bool) (env : CreateEnv) (ext : List Nat)
    (nXSize nYSize : Int) (nBands : Int) (eType : GDALDataType) : CreateResult :=
  if eType ≠ GDALDataType.GDT_Byte ∧ eType ≠ GDALDataType.GDT_UInt16 then
    ⟨none, none, false⟩
  else if nBands ≠ 1 then ⟨none, none, false⟩
  else if env.openOK = false then ⟨none, none, !extIsLUM ext⟩
  else if (decide (4 ≤ env.tagBytesWritten) && env.closeOK) = false then
    ⟨none, some (createContent hostLE env nXSize nYSize eType), !extIsLUM ext⟩
  else
    ⟨(openLUM hostLE (createContent hostLE env nXSize nYSize eType) true
        Access.update).dataset,
     some (createContent hostLE env nXSize nYSize eType), !extIsLUM ext⟩

/-- Bytes written by a successful Create before the reopen: the two casted
32-bit dimensions in host order followed by the 4-character tag. -/
def createHeaderBytes (hostLE : Bool) (x y : Int) (t : GDALDataType) : List Nat :=
  u32bytes hostLE (u32ofInt x) ++ u32bytes hostLE (u32ofInt y) ++ tagBytes hostLE t

/-- A mask of the form (2^a - 1) <<< k selects the bit lanes k..k+a-1. -/
lemma and_mask (x k a : Nat) : x &&& (2 ^ a - 1) <<< k = ((x >>> k) % 2 ^ a) <<< k := by
  apply Nat.eq_of_testBit_eq
  intro i
  simp only [Nat.testBit_and, Nat.testBit_shiftLeft, Nat.testBit_mod_two_pow,
    Nat.testBit_shiftRight, Nat.testBit_two_pow_sub_one]
  by_cases hk : k ≤ i
  · have h2 : k + (i - k) = i := by omega
    simp [hk, h2, Bool.and_comm, Bool.and_left_comm]
  · simp [hk]

/-- The shift/mask cascade of swapByteOrder reverses the four bytes of a
32-bit value. -/
lemma swapByteOrder_bytes (b0 b1 b2 b3 : Nat)
    (h0 : b0 < 256) (h1 : b1 < 256) (h2 : b2 < 256) (h3 : b3 < 256) :
    swapByteOrder (b0 + b1 * 256 + b2 * 65536 + b3 * 16777216) =
      b3 + b2 * 256 + b1 * 65536 + b0 * 16777216 := by
  unfold swapByteOrder
  have e1 : (b0 + b1 * 256 + b2 * 65536 + b3 * 16777216) >>> 24 = b3 := by
    rw [Nat.shiftRight_eq_div_pow]
    omega
  have e2 : ((b0 + b1 * 256 + b2 * 65536 + b3 * 16777216) <<< 8) &&& 0x00FF0000
      = 2 ^ 16 * b1 := by
    have hm : (0x00FF0000 : Nat) = (2 ^ 8 - 1) <<< 16 := by decide
    rw [hm, and_mask, Nat.shiftLeft_eq, Nat.shiftLeft_eq, Nat.shiftRight_eq_div_pow]
    omega
  have e3 : ((b0 + b1 * 256 + b2 * 65536 + b3 * 16777216) >>> 8) &&& 0x0000FF00
      = 2 ^ 8 * b2 := by
    have hm : (0x0000FF00 : Nat) = (2 ^ 8 - 1) <<< 8 := by decide
    rw [hm, and_mask, Nat.shiftLeft_eq, Nat.shiftRight_eq_div_pow,
      Nat.shiftRight_eq_div_pow]
    omega
  have e4 : ((b0 + b1 * 256 + b2 * 65536 + b3 * 16777216) <<< 24) % 4294967296
      = 2 ^ 24 * b0 := by
    rw [Nat.shiftLeft_eq]
    omega
  rw [e1, e2, e3, e4,
    Nat.lor_comm b3 (2 ^ 16 * b1),
    Nat.lor_assoc (2 ^ 16 * b1) b3 (2 ^ 8 * b2),
    Nat.lor_comm b3 (2 ^ 8 * b2),
    ← Nat.mul_add_lt_is_or (show b3 < 2 ^ 8 by omega) b2,
    ← Nat.mul_add_lt_is_or (show 2 ^ 8 * b2 + b3 < 2 ^ 16 by omega) b1,
    Nat.lor_comm (2 ^ 16 * b1 + (2 ^ 8 * b2 + b3)) (2 ^ 24 * b0),
    ← Nat.mul_add_lt_is_or (show 2 ^ 16 * b1 + (2 ^ 8 * b2 + b3) < 2 ^ 24 by omega) b0]
  ring

/-- Every byte a getD lookup can produce from a well-formed byte buffer is a
byte. -/
lemma getD_lt_256 (l : List Nat) (hb : ∀ b ∈ l, b < 256) (i : Nat) : l.getD i 0 < 256 := by
  rcases hg : l[i]? with _ | a
  · simp [List.getD_eq_getElem?_getD, hg]
  · have hm := List.getElem?_mem hg
    simp only [List.getD_eq_getElem?_getD, hg, Option.getD_some]
    exact hb a hm

/-- Byte-swapping the native reading of 4 buffer bytes gives the
opposite-endian reading of the same bytes. -/
lemma swap_readU32 (hostLE : Bool) (hdr : List Nat) (hb : ∀ b ∈ hdr, b < 256)
    (off : Nat) : swapByteOrder (readU32 hostLE hdr off) = readU32 (!hostLE) hdr off := by
  have g0 := getD_lt_256 hdr hb off
  have g1 := getD_lt_256 hdr hb (off + 1)
  have g2 := getD_lt_256 hdr hb (off + 2)
  have g3 := getD_lt_256 hdr hb (off + 3)
  cases hostLE with
  | false =>
    simp only [readU32, Bool.not_false, if_neg, if_pos]
    exact swapByteOrder_bytes _ _ _ _ g3 g2 g1 g0
  | true =>
    simp only [readU32, Bool.not_true, if_pos, if_neg]
    exact swapByteOrder_bytes _ _ _ _ g0 g1 g2 g3

/-- startsWithCI only consults the bytes under the tag. -/
lemma startsWithCI_congr (hdr hdr2 : List Nat) (tag : List Nat) : ∀ (off : Nat),
    (∀ i, i < tag.length → hdr.getD (off + i) 0 = hdr2.getD (off + i) 0) →
    startsWithCI hdr off tag = startsWithCI hdr2 off tag := by
  induction tag with
  | nil => intro off _; rfl
  | cons c rest ih =>
    intro off hag
    have h0 := hag 0 (by simp)
    rw [Nat.add_zero] at h0
    simp only [startsWithCI, h0]
    congr 1
    apply ih
    intro i hi
    have h1 := hag (i + 1) (by simp only [List.length_cons]; omega)
    rw [show off + (i + 1) = off + 1 + i from by omega] at h1
    exact h1

/-- List.any respects pointwise equal predicates. -/
lemma any_congr_mem {α : Type} (l : List α) (p q : α → Bool)
    (h : ∀ a ∈ l, p a = q a) : l.any p = l.any q := by
  induction l with
  | nil => rfl
  | cons a rest ih =>
    simp only [List.any_cons]
    rw [h a (by simp), ih (fun b hb => h b (by simp [hb]))]

/-- A buffer of fewer than 12 bytes never identifies. -/
lemma identify_of_short (hdr : List Nat) (fpL : Bool) (h : hdr.length < 12) :
    identify hdr fpL = false := by
  simp [identify, h]

/-- Open returns nullptr without touching the stream when Identify fails. -/
lemma openLUM_of_not_identified (hostLE : Bool) (hdr : List Nat) (fpL : Bool)
    (acc : Access) (h : identify hdr fpL = false) :
    openLUM hostLE hdr fpL acc = ⟨none, false, false⟩ := by
  simp [openLUM, h]


lemma readU32_u32bytes (hostLE : Bool) (v : Nat) (rest : List Nat) :
    readU32 hostLE (u32bytes hostLE v ++ rest) 0 = v % 4294967296 := by
  cases hostLE <;>
    · show v % 256 + v / 256 % 256 * 256 + v / 65536 % 256 * 65536 +
        v / 16777216 % 256 * 16777216 = v % 4294967296
      omega

lemma readU32_u32bytes4 (hostLE : Bool) (w v : Nat) (rest : List Nat) :
    readU32 hostLE (u32bytes hostLE w ++ u32bytes hostLE v ++ rest) 4 = v % 4294967296 := by
  cases hostLE <;>
    · show v % 256 + v / 256 % 256 * 256 + v / 65536 % 256 * 65536 +
        v / 16777216 % 256 * 16777216 = v % 4294967296
      omega

lemma identify_created (hostLE : Bool) (t : GDALDataType) (v h : Nat)
    (ht : t = GDALDataType.GDT_Byte ∨ t = GDALDataType.GDT_UInt16) :
    identify (u32bytes hostLE v ++ u32bytes hostLE h ++ tagBytes hostLE t) true = true := by
  rcases ht with rfl | rfl <;> cases hostLE <;> rfl

lemma openLUM_on_created (hostLE : Bool) (t : GDALDataType) (v h : Nat) (acc : Access)
    (hv : v < 4294967296) (hh : h < 4294967296)
    (ht : t = GDALDataType.GDT_Byte ∨ t = GDALDataType.GDT_UInt16) :
    openLUM hostLE (u32bytes hostLE v ++ u32bytes hostLE h ++ tagBytes hostLE t) true acc =
      if i32ofU32 v ≤ 0 ∨ i32ofU32 h ≤ 0 then ⟨none, true, true⟩
      else if 2147483647 / GDALGetDataTypeSizeBytes t < v then ⟨none, true, true⟩
      else ⟨some { newLUMDataset with
                     nRasterXSize := i32ofU32 v
                     nRasterYSize := i32ofU32 h
                     eAccess := acc
                     band := some { imgOffset := v * GDALGetDataTypeSizeBytes t
                                    pixelOffset := GDALGetDataTypeSizeBytes t
                                    lineOffset := v * GDALGetDataTypeSizeBytes t
                                    dataType := t
                                    bNativeOrder := true
                                    ownsFP := false
                                    colorInterp := ColorInterp.grayIndex }
                     bGeoTransformValid := true }, true, false⟩ := by
  have hw : openParsedWidth hostLE
      (u32bytes hostLE v ++ u32bytes hostLE h ++ tagBytes hostLE t) = v := by
    rcases ht with rfl | rfl <;> cases hostLE <;>
      · show v % 256 + v / 256 % 256 * 256 + v / 65536 % 256 * 65536 +
          v / 16777216 % 256 * 16777216 = v
        omega
  have hhp : openParsedHeight hostLE
      (u32bytes hostLE v ++ u32bytes hostLE h ++ tagBytes hostLE t) = h := by
    rcases ht with rfl | rfl <;> cases hostLE <;>
      · show h % 256 + h / 256 % 256 * 256 + h / 65536 % 256 * 65536 +
          h / 16777216 % 256 * 16777216 = h
        omega
  have hid := identify_created hostLE t v h ht
  rcases ht with rfl | rfl <;> cases hostLE <;>
    · unfold openLUM
      rw [hid]
      simp only [Bool.true_eq_false, if_neg, ite_false, if_false]
      rw [hw, hhp]
      rfl


lemma createLUM_allOK (hostLE : Bool) (ext : List Nat) (x y : Int) (t : GDALDataType)
    (ht : t = GDALDataType.GDT_Byte ∨ t = GDALDataType.GDT_UInt16) :
    createLUM hostLE allOKEnv ext x y 1 t =
      ⟨(openLUM hostLE (createHeaderBytes hostLE x y t) true Access.update).dataset,
       some (createHeaderBytes hostLE x y t), !extIsLUM ext⟩ := by
  rcases ht with rfl | rfl <;> cases hostLE <;> rfl

lemma u32ofInt_natCast (w : Nat) (hw : w < 4294967296) : u32ofInt (w : Int) = w := by
  unfold u32ofInt
  omega

lemma i32ofU32_natCast (w : Nat) (hw : w < 2147483648) : i32ofU32 w = (w : Int) := by
  unfold i32ofU32
  simp [hw]

lemma i32ofU32_of_int32 (x : Int) (h1 : -2147483648 ≤ x) (h2 : x ≤ 2147483647) :
    i32ofU32 (u32ofInt x) = x := by
  unfold u32ofInt i32ofU32
  split <;> omega

lemma u32bytes_length (hostLE : Bool) (v : Nat) : (u32bytes hostLE v).length = 4 := by
  cases hostLE <;> rfl

lemma tagBytes_length (hostLE : Bool) (t : GDALDataType) :
    (tagBytes hostLE t).length = 4 := by
  cases hostLE <;> rfl

/-- A byte that case-insensitively equals a cannot also equal a character with
a different lowercase form. -/
lemma ciEq_unique (g a b : Nat) (hab : toLower a ≠ toLower b) (h : ciEq g a = true) :
    ciEq g b = false := by
  simp only [ciEq, beq_iff_eq] at h
  simp only [ciEq, beq_eq_false_iff_ne, ne_eq, h]
  exact hab

/-- Two 2-character tags whose first characters differ case-insensitively
cannot both match the same buffer position. -/
lemma startsWithCI_pair_false (hdr : List Nat) (off a b c : Nat)
    (hac : toLower a ≠ toLower c)
    (h : startsWithCI hdr off [a, b] = true) : startsWithCI hdr off [c, b] = false := by
  simp only [startsWithCI, Bool.and_eq_true] at h
  obtain ⟨h1, _⟩ := h
  simp only [startsWithCI]
  rw [ciEq_unique _ _ _ hac h1, Bool.false_and]

/-- C2 (code bug): the RawRasterBand constructed for the 4 x 3 8-bit header is
configured with image offset nWidth * iPixelSize = 4 instead of 12, while the
pixel stride is 1 and the line stride is 4; reading a file laid out as the
documented format (12-byte header, then pixels) is therefore misplaced
whenever width * pixelSize differs from 12. -/
theorem C2_band_geometry :
    ((openLUM true [4, 0, 0, 0, 3, 0, 0, 0, 48, 56, 76, 73] true
          Access.readOnly).dataset.bind (fun d => d.band)).map
        (fun b => (b.imgOffset, b.pixelOffset, b.lineOffset)) =
      some (4, 1, 4) := by decide

/-- C9: every dataset successfully returned by Open has its geotransform-valid
flag set, GetGeoTransform on it returns exactly [0, 1, 0, 0, 0, 1], and on a
freshly constructed (never opened) adapter GetGeoTransform reports failure. -/
theorem C9_geotransform (hostLE : Bool) (hdr : List Nat) (fpL : Bool) (acc : Access)
    (ds : LUMDatasetModel) (hds : (openLUM hostLE hdr fpL acc).dataset = some ds) :
    ds.bGeoTransformValid = true ∧ getGeoTransform ds = some [0, 1, 0, 0, 0, 1] ∧
      getGeoTransform newLUMDataset = none := by
  unfold openLUM at hds
  split at hds
  · exact absurd hds (by simp)
  · split at hds
    · exact absurd hds (by simp)
    · split at hds
      · exact absurd hds (by simp)
      · split at hds
        · exact absurd hds (by simp)
        · rw [Option.some.injEq] at hds
          subst hds
          exact ⟨rfl, rfl, rfl⟩

/-- C4: Identify is true exactly when at least 12 header bytes and a stream
are available and bytes 8..11 case-insensitively match one of the 19 tags,
and its value depends on nothing but those four header bytes (buffers that
agree on bytes 8..11 identify identically, whatever their bytes 0..7 or any
bytes past offset 11 are). -/
theorem C4_identify (hdr hdr2 : List Nat) (fpL : Bool) :
    (identify hdr fpL = true ↔
      12 ≤ hdr.length ∧ fpL = true ∧
        identifyTags.any (fun t => startsWithCI hdr 8 t) = true) ∧
    (12 ≤ hdr.length → 12 ≤ hdr2.length →
      (∀ i, 8 ≤ i → i < 12 → hdr.getD i 0 = hdr2.getD i 0) →
      identify hdr fpL = identify hdr2 fpL) := by
  constructor
  · constructor
    · intro h
      unfold identify at h
      by_cases hc : hdr.length < 12 ∨ fpL = false
      · rw [if_pos hc] at h
        exact absurd h (by simp)
      · rw [if_neg hc] at h
        push_neg at hc
        refine ⟨by omega, ?_, h⟩
        cases fpL
        · exact absurd rfl hc.2
        · rfl
    · rintro ⟨h1, h2, h3⟩
      unfold identify
      rw [if_neg, h3]
      rintro (hc | hc)
      · omega
      · rw [h2] at hc
        exact absurd hc (by simp)
  · intro h1 h2 hag
    have hc : ∀ t ∈ identifyTags, startsWithCI hdr 8 t = startsWithCI hdr2 8 t := by
      intro t htm
      have htl : t.length ≤ 4 := by fin_cases htm <;> simp
      apply startsWithCI_congr
      intro i hi
      exact hag (8 + i) (by omega) (by omega)
    cases fpL with
    | false => simp [identify]
    | true =>
      unfold identify
      rw [if_neg (by simp; omega), if_neg (by simp; omega), any_congr_mem _ _ _ hc]

/-- C5: when the order tag at bytes 10..11 denotes the byte order opposite to
the host's, the parsed width and height are the byte-swapped (equivalently:
opposite-endian) reading of the raw 32-bit values at offsets 0 and 4; when the
tag denotes the host's native order the raw values are used unchanged. -/
theorem C5_byte_order (hostLE : Bool) (hdr : List Nat) (hb : ∀ b ∈ hdr, b < 256) :
    (startsWithCI hdr 10 (if hostLE then [66, 73] else [76, 73]) = true →
      openParsedWidth hostLE hdr = swapByteOrder (readU32 hostLE hdr 0) ∧
      openParsedWidth hostLE hdr = readU32 (!hostLE) hdr 0 ∧
      openParsedHeight hostLE hdr = swapByteOrder (readU32 hostLE hdr 4) ∧
      openParsedHeight hostLE hdr = readU32 (!hostLE) hdr 4) ∧
    (startsWithCI hdr 10 (if hostLE then [76, 73] else [66, 73]) = true →
      openParsedWidth hostLE hdr = readU32 hostLE hdr 0 ∧
      openParsedHeight hostLE hdr = readU32 hostLE hdr 4) := by
  constructor
  · intro htag
    have hswap : openDoSwap hostLE hdr = true := by
      cases hostLE <;> simpa [openDoSwap] using htag
    refine ⟨?_, ?_, ?_, ?_⟩ <;>
      simp [openParsedWidth, openParsedHeight, hswap, swap_readU32 hostLE hdr hb]
  · intro htag
    have hswap : openDoSwap hostLE hdr = false := by
      cases hostLE with
      | false =>
        exact startsWithCI_pair_false hdr 10 66 73 76 (by decide)
          (by simpa using htag)
      | true =>
        exact startsWithCI_pair_false hdr 10 76 73 66 (by decide)
          (by simpa using htag)
    constructor <;> simp [openParsedWidth, openParsedHeight, hswap]

/-- C3: a failed write of the 4-byte width, the 4-byte height or the 4-byte
tag, or a failed close, each cause Create to return no dataset (the tag write
and the close are checked explicitly; a failed width or height write leaves
the file under 12 bytes, so the delegated re-Open cannot identify it and
Create still returns null). -/
theorem C3_write_failures (hostLE : Bool) (env : CreateEnv) (ext : List Nat)
    (x y : Int) (nBands : Int) (t : GDALDataType)
    (hfail : env.widthBytesWritten < 4 ∨ env.heightBytesWritten < 4 ∨
      env.tagBytesWritten < 4 ∨ env.closeOK = false) :
    (createLUM hostLE env ext x y nBands t).dataset = none := by
  unfold createLUM
  split
  · rfl
  · split
    · rfl
    · split
      · rfl
      · split
        · rfl
        · rename_i hbOK
          simp only [Bool.and_eq_false_iff, decide_eq_false_iff_not, not_le] at hbOK
          push_neg at hbOK
          have hwh : env.widthBytesWritten < 4 ∨ env.heightBytesWritten < 4 := by
            rcases hfail with hf | hf | hf | hf
            · exact Or.inl hf
            · exact Or.inr hf
            · exact absurd hf (by omega)
            · exact absurd hf hbOK.2
          show (openLUM hostLE (createContent hostLE env x y t) true
            Access.update).dataset = none
          rw [openLUM_of_not_identified _ _ _ _ (identify_of_short _ _ ?_)]
          unfold createContent
          simp only [List.length_append, List.length_take, u32bytes_length,
            tagBytes_length]
          omega

/-- C6: whenever a header that passes Identify yields (after any byte swap) a
width or height that is zero or non-positive as a signed 32-bit value, or a
width-times-pixel-size product exceeding the signed 32-bit range, Open fails:
it returns no dataset and the stream it took ownership of has been closed
again before the failure is reported. -/
theorem C6_invalid_geometry (hostLE : Bool) (hdr : List Nat) (acc : Access)
    (hid : identify hdr true = true)
    (hbad : i32ofU32 (openParsedWidth hostLE hdr) ≤ 0 ∨
      i32ofU32 (openParsedHeight hostLE hdr) ≤ 0 ∨
      2147483647 < openParsedWidth hostLE hdr *
        GDALGetDataTypeSizeBytes (openDataType hdr)) :
    openLUM hostLE hdr true acc = ⟨none, true, true⟩ := by
  unfold openLUM
  rw [hid]
  simp only [Bool.true_eq_false, if_false]
  by_cases hdim : i32ofU32 (openParsedWidth hostLE hdr) ≤ 0 ∨
      i32ofU32 (openParsedHeight hostLE hdr) ≤ 0
  · rw [if_pos hdim]
  · rw [if_neg hdim, if_pos ?_]
    have hov : 2147483647 < openParsedWidth hostLE hdr *
        GDALGetDataTypeSizeBytes (openDataType hdr) := by tauto
    have hp : GDALGetDataTypeSizeBytes (openDataType hdr) = 1 ∨
        GDALGetDataTypeSizeBytes (openDataType hdr) = 2 := by
      unfold openDataType
      split <;> simp [GDALGetDataTypeSizeBytes]
    rcases hp with hp | hp <;> rw [hp] at hov ⊢ <;> omega

/-- C7: Create rejects any pixel type other than Byte and UInt16, and any
band count other than 1, in both cases before the destination file is opened
(no file is created or modified and no extension warning is emitted); a
non-"lum" extension only triggers the warning, and creation proceeds to the
file whenever the open succeeds. -/
theorem C7_create_validation (hostLE : Bool) (env : CreateEnv) (ext : List Nat)
    (x y : Int) (nBands : Int) (t : GDALDataType) :
    (t ≠ GDALDataType.GDT_Byte ∧ t ≠ GDALDataType.GDT_UInt16 →
      createLUM hostLE env ext x y nBands t = ⟨none, none, false⟩) ∧
    ((t = GDALDataType.GDT_Byte ∨ t = GDALDataType.GDT_UInt16) → nBands ≠ 1 →
      createLUM hostLE env ext x y nBands t = ⟨none, none, false⟩) ∧
    ((t = GDALDataType.GDT_Byte ∨ t = GDALDataType.GDT_UInt16) → nBands = 1 →
      extIsLUM ext = false →
      (createLUM hostLE env ext x y nBands t).warnedExt = true ∧
        (env.openOK = true →
          (createLUM hostLE env ext x y nBands t).fileContent ≠ none)) := by
    refine ⟨?_, ?_, ?_⟩
    · intro hbad
      unfold createLUM
      rw [if_pos hbad]
    · intro ht hbands
      unfold createLUM
      rw [if_neg (by rcases ht with rfl | rfl <;> simp), if_pos hbands]
    · intro ht hbands hext
      unfold createLUM
      rw [if_neg (by rcases ht with rfl | rfl <;> simp), if_neg (by simp [hbands])]
      constructor
      · split
        · simp [hext]
        · split <;> simp [hext]
      · intro hopen
        rw [if_neg (by simp [hopen])]
        split <;> simp

/-- C1: round-trip law.  For 0 < w, h < 2^31 and a pixel type in
{GDT_Byte, GDT_UInt16} of size p with w * p ≤ 2^31 - 1, Create(w, h, 1, type)
writes exactly the 12 header bytes, and opening that file yields a dataset of
raster size w x h whose single band carries exactly the requested type. -/
theorem C1_round_trip (hostLE : Bool) (acc : Access) (w h : Nat) (t : GDALDataType)
    (ht : t = GDALDataType.GDT_Byte ∨ t = GDALDataType.GDT_UInt16)
    (hw1 : 0 < w) (hw2 : w < 2147483648) (hh1 : 0 < h) (hh2 : h < 2147483648)
    (hwp : w * GDALGetDataTypeSizeBytes t ≤ 2147483647) :
    (createLUM hostLE allOKEnv lumExt (w : Int) (h : Int) 1 t).fileContent =
      some (createHeaderBytes hostLE (w : Int) (h : Int) t) ∧
    (openLUM hostLE (createHeaderBytes hostLE (w : Int) (h : Int) t) true
        acc).dataset =
      some { nRasterXSize := (w : Int)
             nRasterYSize := (h : Int)
             eAccess := acc
             band := some { imgOffset := w * GDALGetDataTypeSizeBytes t
                            pixelOffset := GDALGetDataTypeSizeBytes t
                            lineOffset := w * GDALGetDataTypeSizeBytes t
                            dataType := t
                            bNativeOrder := true
                            ownsFP := false
                            colorInterp := ColorInterp.grayIndex }
             bGeoTransformValid := true
             geoTransform := [0, 1, 0, 0, 0, 1] } := by
  constructor
  · rw [createLUM_allOK hostLE lumExt _ _ t ht]
  · have hu : u32ofInt (w : Int) = w := u32ofInt_natCast w (by omega)
    have hv : u32ofInt (h : Int) = h := u32ofInt_natCast h (by omega)
    unfold createHeaderBytes
    rw [hu, hv, openLUM_on_created hostLE t w h acc (by omega) (by omega) ht,
      if_neg ?_, if_neg ?_]
    · rw [i32ofU32_natCast w hw2, i32ofU32_natCast h hh2]
      rfl
    · have hp : GDALGetDataTypeSizeBytes t = 1 ∨ GDALGetDataTypeSizeBytes t = 2 := by
        rcases ht with rfl | rfl <;> simp [GDALGetDataTypeSizeBytes]
      rcases hp with hp | hp <;> rw [hp] at hwp ⊢ <;> omega
    · rw [i32ofU32_natCast w hw2, i32ofU32_natCast h hh2]
      rintro (hc | hc) <;> omega

/-- C8: with a supported type and one band, Create writes the casted width and
height as raw 32-bit values in the host's byte order, then the 4-character tag
whose first two characters are "08" for 8-bit and "12" for 16-bit output and
whose last two are "LI" on a little-endian host and "BI" otherwise, for a
12-byte header; it returns the dataset produced by re-opening the written
file through the Open path in update mode. -/
theorem C8_create_header (hostLE : Bool) (ext : List Nat) (x y : Int)
    (t : GDALDataType)
    (ht : t = GDALDataType.GDT_Byte ∨ t = GDALDataType.GDT_UInt16) :
    createLUM hostLE allOKEnv ext x y 1 t =
      ⟨(openLUM hostLE (createHeaderBytes hostLE x y t) true
          Access.update).dataset,
       some (createHeaderBytes hostLE x y t), !extIsLUM ext⟩ ∧
    (createHeaderBytes hostLE x y t).length = 12 ∧
    (createHeaderBytes hostLE x y t).take 4 = u32bytes hostLE (u32ofInt x) ∧
    ((createHeaderBytes hostLE x y t).drop 4).take 4 =
      u32bytes hostLE (u32ofInt y) ∧
    (createHeaderBytes hostLE x y t).drop 8 =
      (if t = GDALDataType.GDT_Byte then [48, 56] else [49, 50]) ++
        (if hostLE then [76, 73] else [66, 73]) := by
  refine ⟨createLUM_allOK hostLE ext x y t ht, ?_, ?_, ?_, ?_⟩ <;>
    rcases ht with rfl | rfl <;> cases hostLE <;> rfl

/-- C10 (implicit): Create performs no dimension validation, so with a
supported type and one band but a non-positive width or height it still
truncate-creates the file and writes the full 12-byte header; the delegated
re-Open then rejects the dimensions, Create returns no dataset, and the file
with the invalid header remains — unlike a bad type or band count, after
which no file exists. -/
theorem C10_invalid_dims_leave_file (hostLE : Bool) (ext : List Nat) (x y : Int)
    (t : GDALDataType)
    (ht : t = GDALDataType.GDT_Byte ∨ t = GDALDataType.GDT_UInt16)
    (hx1 : -2147483648 ≤ x) (hx2 : x ≤ 2147483647)
    (hy1 : -2147483648 ≤ y) (hy2 : y ≤ 2147483647)
    (hneg : x ≤ 0 ∨ y ≤ 0) :
    (createLUM hostLE allOKEnv ext x y 1 t).dataset = none ∧
    (createLUM hostLE allOKEnv ext x y 1 t).fileContent =
      some (createHeaderBytes hostLE x y t) ∧
    (createHeaderBytes hostLE x y t).length = 12 ∧
    (createLUM hostLE allOKEnv ext x y 1 GDALDataType.GDT_Unknown).fileContent =
      none ∧
    (createLUM hostLE allOKEnv ext x y 2 t).fileContent = none := by
  refine ⟨?_, ?_, ?_, ?_, ?_⟩
  · rw [createLUM_allOK hostLE ext x y t ht]
    show (openLUM hostLE (createHeaderBytes hostLE x y t) true
      Access.update).dataset = none
    unfold createHeaderBytes
    rw [openLUM_on_created hostLE t (u32ofInt x) (u32ofInt y) Access.update
      (by unfold u32ofInt; omega) (by unfold u32ofInt; omega) ht, if_pos ?_]
    rw [i32ofU32_of_int32 x hx1 hx2, i32ofU32_of_int32 y hy1 hy2]
    exact hneg
  · rw [createLUM_allOK hostLE ext x y t ht]
  · rcases ht with rfl | rfl <;> cases hostLE <;> rfl
  · rfl
  · rcases ht with rfl | rfl <;> rfl

/-- Witness for C1: the round trip at 4 x 3 with 8-bit pixels on a
little-endian host. -/
theorem C1_round_trip_witness :
    (openLUM true (createHeaderBytes true ((4 : Nat) : Int) ((3 : Nat) : Int)
        GDALDataType.GDT_Byte) true Access.readOnly).dataset =
      some { nRasterXSize := ((4 : Nat) : Int)
             nRasterYSize := ((3 : Nat) : Int)
             eAccess := Access.readOnly
             band := some { imgOffset := 4 * GDALGetDataTypeSizeBytes
                              GDALDataType.GDT_Byte
                            pixelOffset := GDALGetDataTypeSizeBytes
                              GDALDataType.GDT_Byte
                            lineOffset := 4 * GDALGetDataTypeSizeBytes
                              GDALDataType.GDT_Byte
                            dataType := GDALDataType.GDT_Byte
                            bNativeOrder := true
                            ownsFP := false
                            colorInterp := ColorInterp.grayIndex }
             bGeoTransformValid := true
             geoTransform := [0, 1, 0, 0, 0, 1] } :=
  (C1_round_trip true Access.readOnly 4 3 GDALDataType.GDT_Byte (Or.inl rfl)
    (by decide) (by decide) (by decide) (by decide) (by decide)).2

/-- Witness for C3: a width write that stops after 2 bytes makes Create
return no dataset. -/
theorem C3_write_failures_witness :
    (createLUM true
        { openOK := true
          widthBytesWritten := 2
          heightBytesWritten := 4
          tagBytesWritten := 4
          closeOK := true }
        lumExt 4 3 1 GDALDataType.GDT_Byte).dataset = none :=
  C3_write_failures true
    { openOK := true
      widthBytesWritten := 2
      heightBytesWritten := 4
      tagBytesWritten := 4
      closeOK := true }
    lumExt 4 3 1 GDALDataType.GDT_Byte (Or.inl (by decide))

/-- Witness for C4: a concrete "08BI" header identifies, and identification
agrees across two buffers that differ in bytes 0..7 only. -/
theorem C4_identify_witness :
    identify [0, 0, 0, 0, 0, 0, 0, 0, 48, 56, 66, 73] true = true ∧
    identify [0, 0, 0, 0, 0, 0, 0, 0, 48, 56, 66, 73] true =
      identify [9, 9, 9, 9, 9, 9, 9, 9, 48, 56, 66, 73] true := by
  constructor
  · exact (C4_identify [0, 0, 0, 0, 0, 0, 0, 0, 48, 56, 66, 73]
      [9, 9, 9, 9, 9, 9, 9, 9, 48, 56, 66, 73] true).1.mpr
      ⟨by decide, rfl, by decide⟩
  · exact (C4_identify [0, 0, 0, 0, 0, 0, 0, 0, 48, 56, 66, 73]
      [9, 9, 9, 9, 9, 9, 9, 9, 48, 56, 66, 73] true).2 (by decide) (by decide)
      (by intro i h8 h12; interval_cases i <;> rfl)

/-- Witness for C5: a "BI"-tagged header on a little-endian host parses its
width as the opposite-endian reading of bytes 0..3. -/
theorem C5_byte_order_witness :
    openParsedWidth true [1, 0, 0, 0, 2, 0, 0, 0, 48, 56, 66, 73] =
      readU32 false [1, 0, 0, 0, 2, 0, 0, 0, 48, 56, 66, 73] 0 :=
  ((C5_byte_order true [1, 0, 0, 0, 2, 0, 0, 0, 48, 56, 66, 73]
      (by decide)).1 (by decide)).2.1

/-- Witness for C6: a zero-width "08LI" header makes Open fail with the
stream taken and closed. -/
theorem C6_invalid_geometry_witness :
    openLUM true [0, 0, 0, 0, 3, 0, 0, 0, 48, 56, 76, 73] true
      Access.readOnly = ⟨none, true, true⟩ :=
  C6_invalid_geometry true [0, 0, 0, 0, 3, 0, 0, 0, 48, 56, 76, 73]
    Access.readOnly (by decide) (Or.inl (by decide))

/-- Witness for C7: a float type and a band count of 3 are rejected without a
file, and a ".png" destination only warns. -/
theorem C7_create_validation_witness :
    createLUM true allOKEnv lumExt 4 3 1 GDALDataType.GDT_Float32 =
      ⟨none, none, false⟩ ∧
    createLUM true allOKEnv lumExt 4 3 3 GDALDataType.GDT_Byte =
      ⟨none, none, false⟩ ∧
    (createLUM true allOKEnv [112, 110, 103] 4 3 1
        GDALDataType.GDT_Byte).warnedExt = true ∧
    (createLUM true allOKEnv [112, 110, 103] 4 3 1
        GDALDataType.GDT_Byte).fileContent ≠ none := by
  refine ⟨?_, ?_, ?_, ?_⟩
  · exact (C7_create_validation true allOKEnv lumExt 4 3 1
      GDALDataType.GDT_Float32).1 ⟨by decide, by decide⟩
  · exact (C7_create_validation true allOKEnv lumExt 4 3 3
      GDALDataType.GDT_Byte).2.1 (Or.inl rfl) (by decide)
  · exact ((C7_create_validation true allOKEnv [112, 110, 103] 4 3 1
      GDALDataType.GDT_Byte).2.2 (Or.inl rfl) rfl (by decide)).1
  · exact ((C7_create_validation true allOKEnv [112, 110, 103] 4 3 1
      GDALDataType.GDT_Byte).2.2 (Or.inl rfl) rfl (by decide)).2 rfl

/-- Witness for C8: the header Create writes for a 4 x 3 8-bit file on a
little-endian host is 12 bytes and ends in "08LI". -/
theorem C8_create_header_witness :
    (createHeaderBytes true 4 3 GDALDataType.GDT_Byte).length = 12 ∧
    (createHeaderBytes true 4 3 GDALDataType.GDT_Byte).drop 8 =
      [48, 56, 76, 73] := by
  constructor
  · exact (C8_create_header true lumExt 4 3 GDALDataType.GDT_Byte
      (Or.inl rfl)).2.1
  · exact (C8_create_header true lumExt 4 3 GDALDataType.GDT_Byte
      (Or.inl rfl)).2.2.2.2

/-- Witness for C9: the dataset opened from a concrete 4 x 3 header has the
valid flag set and the identity geotransform; the fresh adapter reports
failure. -/
theorem C9_geotransform_witness :
    ({ nRasterXSize := 4
       nRasterYSize := 3
       eAccess := Access.readOnly
       band := some { imgOffset := 4
                      pixelOffset := 1
                      lineOffset := 4
                      dataType := GDALDataType.GDT_Byte
                      bNativeOrder := true
                      ownsFP := false
                      colorInterp := ColorInterp.grayIndex }
       bGeoTransformValid := true
       geoTransform := [0, 1, 0, 0, 0, 1] } : LUMDatasetModel).bGeoTransformValid
        = true ∧
    getGeoTransform
      { nRasterXSize := 4
        nRasterYSize := 3
        eAccess := Access.readOnly
        band := some { imgOffset := 4
                       pixelOffset := 1
                       lineOffset := 4
                       dataType := GDALDataType.GDT_Byte
                       bNativeOrder := true
                       ownsFP := false
                       colorInterp := ColorInterp.grayIndex }
        bGeoTransformValid := true
        geoTransform := [0, 1, 0, 0, 0, 1] } = some [0, 1, 0, 0, 0, 1] ∧
    getGeoTransform newLUMDataset = none :=
  C9_geotransform true [4, 0, 0, 0, 3, 0, 0, 0, 48, 56, 76, 73] true
    Access.readOnly _ (by decide)

/-- Witness for C10: Create(0, 3, 1, Byte) returns no dataset yet leaves the
12-byte header on disk. -/
theorem C10_invalid_dims_leave_file_witness :
    (createLUM true allOKEnv lumExt 0 3 1 GDALDataType.GDT_Byte).dataset =
      none ∧
    (createLUM true allOKEnv lumExt 0 3 1 GDALDataType.GDT_Byte).fileContent =
      some (createHeaderBytes true 0 3 GDALDataType.GDT_Byte) := by
  have h := C10_invalid_dims_leave_file true lumExt 0 3 GDALDataType.GDT_Byte
    (Or.inl rfl) (by decide) (by decide) (by decide) (by decide)
    (Or.inl (by decide))
  exact ⟨h.1, h.2.1⟩

end LUM
